import Mathlib

/-!
Verification development for the scpsl-soundboard-server repository.

The development shallowly embeds the two cores of the code base:

* the single-writer upload pipeline (`services/soundService` function
  `createSound`, helpers `validateSoundName` and `validateAudioFile`), and
* the plugin socket gateway (`socket/pluginHandler.ts`), which exists in the
  sources in two variants: a single-identity-per-connection variant
  (called V1 below) and a multi-identity-per-connection variant (called V2
  below).  Both variants are embedded, because the behaviour of the two
  differs in several observable ways.

Effectful collaborators (the database, the redis caches, ffmpeg, the file
system and the sniffing library) are modelled as explicit oracle inputs; the
owner directory is modelled as the list of file names it holds.
-/

namespace Soundboard

/-- Error codes of the upload pipeline (`types/sound.ts` via
`soundService`/`audioValidator`).  The source spells them in upper snake
case (NAME_TOO_SHORT, ..., INTERNAL_ERROR); they are renamed here to
lower camel case identifiers only. -/
inductive ErrCode where
  | nameTooShort
  | nameTooLong
  | quotaExceeded
  | fileTooLarge
  | invalidFileType
  | invalidFormat
  | invalidAudioData
  | durationTooLong
  | internalError
  deriving DecidableEq, Repr

/-- `UPLOAD_CONFIG.NAME_MIN_LENGTH` in `config/upload.ts`. -/
def NAME_MIN_LENGTH : Nat := 1

/-- `UPLOAD_CONFIG.NAME_MAX_LENGTH` in `config/upload.ts`. -/
def NAME_MAX_LENGTH : Nat := 32

/-- JS `String.prototype.trim`: drop leading and trailing whitespace.
Modelled structurally over the character list of the string. -/
def trimName (name : String) : List Char :=
  ((name.data.dropWhile Char.isWhitespace).reverse.dropWhile
    Char.isWhitespace).reverse

/-- `validateSoundName` from `services/audioValidator.ts`: trims the name and
checks the trimmed length against the configured bounds.  Returns `none`
when the name is valid, mirroring the `{ valid: true }` result. -/
def validateSoundName (name : String) : Option ErrCode :=
  let trimmedName := trimName name
  if trimmedName.length < NAME_MIN_LENGTH then some .nameTooShort
  else if trimmedName.length > NAME_MAX_LENGTH then some .nameTooLong
  else none

/-- The dynamic settings resolved by `getSettings` (`schemas/settings.ts`);
durations are rationals standing for the JS numbers. -/
structure Settings where
  maxSoundsPerUser : Nat
  maxFileSize : Nat
  maxDuration : ℚ
  allowedFormats : List String
  deriving DecidableEq, Repr

/-- The allowed-MIME set actually consulted by `validateAudioFile`:
the configured `allowedFormats`, to which the code adds the common wav
variants whenever `audio/wav` is configured. -/
def effectiveFormats (fs : List String) : List String :=
  if "audio/wav" ∈ fs then fs ++ ["audio/wave", "audio/x-wav"] else fs

/-- `validateAudioFile` from `services/audioValidator.ts`.
`bufLen` is `buffer.length`; `sniffed` is the result of
`fileTypeFromBuffer(buffer)` (a function of the raw bytes only — no file
name reaches the validator); `probed` is the result of
`getAudioDuration(tempFilePath)` (`none` when ffprobe rejects the file).
On success it returns the probed duration. -/
def validateAudioFile (st : Settings) (bufLen : Nat) (sniffed : Option String)
    (probed : Option ℚ) : Except ErrCode ℚ :=
  if bufLen > st.maxFileSize then .error .fileTooLarge
  else
    match sniffed with
    | none => .error .invalidFileType
    | some mime =>
      if mime ∈ effectiveFormats st.allowedFormats then
        match probed with
        | none => .error .invalidAudioData
        | some d => if d > st.maxDuration then .error .durationTooLong else .ok d
      else .error .invalidFormat

/-- The oracle inputs of one `createSound` call
(`services/soundService`): the resolved settings, the quota-cache read
(`none` models both a miss and a swallowed backing-store error), the
authoritative `prisma.sound.count`, the sniffed MIME type and probed
duration of the uploaded bytes, the outcome of the three fallible steps
after staging, and the two fresh uuid-based file names the call
generates. -/
structure UploadEnv where
  settings : Settings
  cachedCount : Option Nat
  dbCount : Nat
  sniffed : Option String
  probed : Option ℚ
  convertOk : Bool
  statOk : Bool
  dbCreateOk : Bool
  tempName : String
  finalName : String
  deriving DecidableEq, Repr

/-- `getUserSoundCount`: cache hit wins, otherwise the authoritative
database count. -/
def resolvedCount (env : UploadEnv) : Nat :=
  match env.cachedCount with
  | some c => c
  | none => env.dbCount

/-- Removing a file name from the owner directory (`fs.unlink`). -/
def removeFile (n : String) (dir : List String) : List String :=
  dir.filter (fun f => f ≠ n)

/-- Result of `createSound`: either the data of the created record or a
tagged error code. -/
inductive UploadResult where
  | ok (filename : String) (duration : ℚ)
  | err (code : ErrCode)
  deriving DecidableEq, Repr

/-- `createSound` from `services/soundService`, as a function from the
oracle environment, the owner directory contents and the request to the
result, the directory contents after the call, and whether a Sound record
was created.  The step numbering follows the comments in the source:

1. validate name; 2. quota check; 3. ensure directory; 4. write the
temporary staging file; 5. `validateAudioFile` (failure: unlink temp);
6. `convertToOggOpus` to a fresh `<uuid>.ogg` (failure throws into the
catch block, which unlinks only the temp file; conversion failure is
modelled as producing no output file); 7. unlink the temp file;
8. `fs.stat(finalPath)`; 9. `prisma.sound.create`; 10. invalidate the
quota cache.  A throw at step 8 or 9 reaches the catch block, which again
unlinks only the temp file (already gone) — the transcoded output file is
not removed there. -/
def createSound (env : UploadEnv) (dir : List String) (name : String)
    (bufLen : Nat) : UploadResult × List String × Bool :=
  match validateSoundName name with
  | some c => (.err c, dir, false)
  | none =>
    if resolvedCount env ≥ env.settings.maxSoundsPerUser then
      (.err .quotaExceeded, dir, false)
    else
      let dir1 := dir ++ [env.tempName]
      match validateAudioFile env.settings bufLen env.sniffed env.probed with
      | .error c => (.err c, removeFile env.tempName dir1, false)
      | .ok duration =>
        if env.convertOk = false then
          (.err .internalError, removeFile env.tempName dir1, false)
        else
          let dir2 := dir1 ++ [env.finalName]
          let dir3 := removeFile env.tempName dir2
          if env.statOk = false then (.err .internalError, dir3, false)
          else if env.dbCreateOk = false then (.err .internalError, dir3, false)
          else (.ok env.finalName duration, dir3, true)

/-! ## The plugin socket gateway (`socket/pluginHandler.ts`)

Sockets are identified by numbers.  The Connection Registry
(`connectedPlayers`, a `Map<string, Socket>`) is an association list from
steamId64 to socket id.  A handler returns its per-connection data together
with the ordered list of primitive steps it performs: message emissions,
forced disconnects, and registry mutations; the registry after the handler
is obtained by folding the steps, so the order of the side effects is part
of the handler value. -/

/-- Sound metadata sent to the plugin (`SoundInfo` in `socket/types.ts`). -/
structure SoundInfo where
  id : String
  name : String
  duration : ℚ
  deriving DecidableEq, Repr

/-- A user row as loaded by `prisma.user.findUnique` in `handleAuth`,
with its sounds included. -/
structure UserRec where
  id : String
  username : String
  isBanned : Bool
  sounds : List SoundInfo
  deriving DecidableEq, Repr

/-- A sound row as loaded in `handlePlaySound`; `ownerSteam` is the
steamId64 of the joined `user` relation. -/
structure SoundRec where
  id : String
  name : String
  filename : String
  duration : ℚ
  userId : String
  ownerSteam : String
  deriving DecidableEq, Repr

/-- Messages emitted by the server on a plugin socket.  Only the fields the
protocol discriminates on are modelled; the base64 encoding of the audio
bytes is abstracted as the file content itself (the encoding is injective,
so which bytes are emitted is preserved). -/
inductive Msg where
  | authErr (error : String)
  | authSuccess (username : String) (sounds : List SoundInfo)
  | soundsList (sounds : List SoundInfo)
  | soundErr (soundId : String) (error : String)
  | soundData (soundId : String) (name : String) (duration : ℚ) (content : String)
  | errMsg (error : String)
  deriving DecidableEq, Repr

/-- The Connection Registry: steamId64 to socket id. -/
abbrev Registry := List (String × Nat)

/-- `connectedPlayers.get`. -/
def regLookup (r : Registry) (sid : String) : Option Nat :=
  match r with
  | [] => none
  | (k, v) :: rest => if k = sid then some v else regLookup rest sid

/-- `connectedPlayers.delete`. -/
def regDelete (r : Registry) (sid : String) : Registry :=
  match r with
  | [] => []
  | (k, v) :: rest => if k = sid then regDelete rest sid else (k, v) :: regDelete rest sid

/-- `connectedPlayers.set` (replaces any binding of the key). -/
def regSet (r : Registry) (sid : String) (s : Nat) : Registry :=
  (sid, s) :: regDelete r sid

/-- Each identity has at most one binding in the registry. -/
def nodupKeys (r : Registry) : Prop :=
  (r.map Prod.fst).Nodup

instance (r : Registry) : Decidable (nodupKeys r) :=
  inferInstanceAs (Decidable (r.map Prod.fst).Nodup)

/-- One primitive side effect of a handler, in program order. -/
inductive Step where
  | emit (sock : Nat) (msg : Msg)
  | close (sock : Nat)
  | store (sid : String) (sock : Nat)
  | remove (sid : String)
  deriving DecidableEq, Repr

/-- Effect of one step on the registry (emissions and disconnects do not
touch it). -/
def applyStep (r : Registry) : Step → Registry
  | .emit _ _ => r
  | .close _ => r
  | .store sid s => regSet r sid s
  | .remove sid => regDelete r sid

/-- Registry after a list of steps. -/
def runSteps (r : Registry) (steps : List Step) : Registry :=
  steps.foldl applyStep r

/-! ### Variant V1: one identity per connection -/

/-- `PluginSocketData` of the single-identity variant. -/
structure V1Data where
  authenticated : Bool
  userId : Option String
  steamId64 : Option String
  username : Option String
  deriving DecidableEq, Repr

/-- The fresh per-connection data of V1 (`{ authenticated: false }`). -/
def v1Fresh : V1Data :=
  { authenticated := false, userId := none, steamId64 := none, username := none }

/-- `handleAuth` of V1.  `users` is the `prisma.user.findUnique` oracle.
An empty `steamId64` models the falsy/non-string check.  Note V1 displaces
whatever socket is registered for the identity, with no check that it is a
different socket, and closes the new socket itself on every auth failure. -/
def handleAuthV1 (reg : Registry) (s : Nat) (d : V1Data) (sid : String)
    (users : String → Option UserRec) : V1Data × List Step :=
  if sid = "" then
    (d, [.emit s (.authErr "Invalid SteamID64"), .close s])
  else
    match users sid with
    | none =>
      (d, [.emit s (.authErr "User not found. Please login via web panel first."), .close s])
    | some u =>
      if u.isBanned then
        (d, [.emit s (.authErr "Your account is banned"), .close s])
      else
        let disp : List Step :=
          match regLookup reg sid with
          | some old => [.emit old (.authErr "Connected from another location"), .close old]
          | none => []
        ({ authenticated := true, userId := some u.id, steamId64 := some sid,
           username := some u.username },
         disp ++ [.store sid s, .emit s (.authSuccess u.username u.sounds)])

/-- The sound metadata list served for a user id (`prisma.sound.findMany`
ordered by creation time descending; the table is taken already in query
order). -/
def soundsOf (table : List SoundRec) (uid : String) : List SoundInfo :=
  (table.filter (fun r => r.userId = uid)).map (fun r => ⟨r.id, r.name, r.duration⟩)

/-- `handleGetSounds` of V1: the guard is
`!socketData.authenticated || !socketData.userId`. -/
def handleGetSoundsV1 (s : Nat) (d : V1Data) (table : List SoundRec) :
    V1Data × List Step :=
  match d.authenticated, d.userId with
  | true, some uid => (d, [.emit s (.soundsList (soundsOf table uid))])
  | _, _ => (d, [.emit s (.authErr "Not authenticated")])

/-- The file system of the server: path to content, plus a transient
read-failure oracle (`fs.readFile` throwing on an existing file). -/
structure FileSys where
  files : List (String × String)
  readFails : String → Bool

/-- `existsSync`. -/
def existsFile (fs : FileSys) (p : String) : Bool :=
  (fs.files.lookup p).isSome

/-- `fs.readFile`: `none` models a throw (missing file or transient
failure). -/
def readFile (fs : FileSys) (p : String) : Option String :=
  match fs.files.lookup p with
  | none => none
  | some c => if fs.readFails p then none else some c

/-- `getSoundFilePath steamId64 filename` (path.join of the owner
directory and the stored file name). -/
def filePathOf (sid fn : String) : String := sid ++ "/" ++ fn

/-- `prisma.sound.findFirst({ where: { id: soundId, userId } })`. -/
def findOwned (table : List SoundRec) (soundId uid : String) : Option SoundRec :=
  table.find? (fun r => r.id = soundId && r.userId = uid)

/-- `prisma.sound.findUnique({ where: { id: soundId } })`. -/
def findUnique (table : List SoundRec) (soundId : String) : Option SoundRec :=
  table.find? (fun r => r.id = soundId)

/-- `handlePlaySound` of V1: guarded on the connection being authenticated;
the lookup is scoped to the authenticated user id; a throw while reading
the file yields `sound_error` with the fixed message. -/
def handlePlaySoundV1 (s : Nat) (d : V1Data) (soundId : String)
    (table : List SoundRec) (fs : FileSys) : V1Data × List Step :=
  match d.authenticated, d.userId, d.steamId64 with
  | true, some uid, some sid =>
    (match findOwned table soundId uid with
     | none => (d, [.emit s (.soundErr soundId "Sound not found")])
     | some r =>
       match readFile fs (filePathOf sid r.filename) with
       | some content =>
         (d, [.emit s (.soundData r.id r.name r.duration content)])
       | none => (d, [.emit s (.soundErr soundId "Failed to read sound file")]))
  | _, _, _ => (d, [.emit s (.authErr "Not authenticated")])

/-- The disconnect handler of V1: if the connection had stored a steamId64
it deletes that registry entry unconditionally (no comparison against the
currently registered socket). -/
def disconnectV1 (reg : Registry) (d : V1Data) : Registry :=
  match d.steamId64 with
  | some sid => regDelete reg sid
  | none => reg

/-- The message dispatcher of V1 (`socket.on("message", ...)`): `ty` is the
`type` field when it is a string, `none` when the message is malformed. -/
def handleMessageV1 (reg : Registry) (s : Nat) (d : V1Data) (ty : Option String)
    (sid soundId : String) (users : String → Option UserRec)
    (table : List SoundRec) (fs : FileSys) : V1Data × List Step :=
  match ty with
  | none => (d, [.emit s (.errMsg "Invalid message format")])
  | some t =>
    if t = "auth" then handleAuthV1 reg s d sid users
    else if t = "get_sounds" then handleGetSoundsV1 s d table
    else if t = "play_sound" then handlePlaySoundV1 s d soundId table fs
    else (d, [.emit s (.errMsg "Unknown message type")])

/-! ### The authentication timer (V1 arms it, V2 does not) -/

/-- Per-connection timer state of V1: `connection` arms a 10000 ms timeout
whose callback closes the connection if it is still unauthenticated. -/
structure Conn1 where
  authenticated : Bool
  closed : Bool
  timerArmed : Bool
  deriving DecidableEq, Repr

/-- V1 connection right after `connection` fires: unauthenticated, open,
10-second auth timer armed. -/
def v1Connect : Conn1 := { authenticated := false, closed := false, timerArmed := true }

/-- Passage of `ms` milliseconds on a V1 connection that receives no
message: when at least 10000 ms pass the armed timer fires and its callback
runs (`if (!socketData.authenticated)` then emit the timeout error and
disconnect). -/
def v1ElapseSilent (c : Conn1) (ms : Nat) : Conn1 × List Msg :=
  if c.timerArmed ∧ ms ≥ 10000 then
    if c.authenticated = false then
      ({ c with closed := true, timerArmed := false },
       [.authErr "Authentication timeout"])
    else ({ c with timerArmed := false }, [])
  else (c, [])

/-- Per-connection timer state of V2: the `connection` handler of the
multi-identity variant registers only message and disconnect listeners. -/
structure Conn2 where
  closed : Bool
  deriving DecidableEq, Repr

/-- V2 connection right after `connection` fires: open, and no timer of any
kind armed. -/
def v2Connect : Conn2 := { closed := false }

/-- Passage of time on a V2 connection that receives no message: the
connection handler armed no timer, so nothing happens and nothing is
emitted. -/
def v2ElapseSilent (c : Conn2) (_ms : Nat) : Conn2 × List Msg := (c, [])

/-! ### Variant V2: multiple identities per connection -/

/-- An entry of `socketData.authenticatedPlayers`. -/
structure PlayerInfo where
  userId : String
  username : String
  deriving DecidableEq, Repr

/-- `PluginSocketData` of the multi-identity variant: a map
steamId64 to player info, as an association list. -/
structure V2Data where
  players : List (String × PlayerInfo)
  deriving DecidableEq, Repr

/-- The fresh per-connection data of V2 (empty player map). -/
def v2Fresh : V2Data := { players := [] }

/-- `authenticatedPlayers.get`. -/
def plLookup (ps : List (String × PlayerInfo)) (sid : String) : Option PlayerInfo :=
  match ps with
  | [] => none
  | (k, v) :: rest => if k = sid then some v else plLookup rest sid

/-- `authenticatedPlayers.set`. -/
def plSet (ps : List (String × PlayerInfo)) (sid : String) (pi : PlayerInfo) :
    List (String × PlayerInfo) :=
  (sid, pi) :: ps.filter (fun p => p.1 ≠ sid)

/-- `handleAuth` of V2.  Differences from V1: auth failures do not close
the new socket, and the displacement only fires when the registered socket
is a different one (`existingSocket && existingSocket !== socket`). -/
def handleAuthV2 (reg : Registry) (s : Nat) (d : V2Data) (sid : String)
    (users : String → Option UserRec) : V2Data × List Step :=
  if sid = "" then
    (d, [.emit s (.authErr "Invalid SteamID64")])
  else
    match users sid with
    | none =>
      (d, [.emit s (.authErr "User not found. Please login via web panel first.")])
    | some u =>
      if u.isBanned then
        (d, [.emit s (.authErr "Your account is banned")])
      else
        let disp : List Step :=
          match regLookup reg sid with
          | some old =>
            if old ≠ s then
              [.emit old (.authErr "Connected from another location"), .close old]
            else []
          | none => []
        ({ players := plSet d.players sid ⟨u.id, u.username⟩ },
         disp ++ [.store sid s, .emit s (.authSuccess u.username u.sounds)])

/-- `handleGetSounds` of V2: one `sounds_list` per authenticated player on
the socket; with no authenticated players the loop body never runs and no
message at all is emitted (there is no authentication guard). -/
def handleGetSoundsV2 (s : Nat) (d : V2Data) (table : List SoundRec) :
    V2Data × List Step :=
  (d, d.players.map (fun p => .emit s (.soundsList (soundsOf table p.2.userId))))

/-- `handlePlaySound` of V2: looks the sound up globally, then requires its
owner identity to be authenticated on this socket; a missing file is
detected with `existsSync` and reported with a dedicated message, a throw
of `fs.readFile` on an existing file with the generic read-failure
message. -/
def handlePlaySoundV2 (s : Nat) (d : V2Data) (soundId : String)
    (table : List SoundRec) (fs : FileSys) : V2Data × List Step :=
  match findUnique table soundId with
  | none => (d, [.emit s (.soundErr soundId "Sound not found")])
  | some r =>
    match plLookup d.players r.ownerSteam with
    | none => (d, [.emit s (.soundErr soundId "Not authenticated")])
    | some pi =>
      if pi.userId ≠ r.userId then
        (d, [.emit s (.soundErr soundId "Not authenticated")])
      else
        let p := filePathOf r.ownerSteam r.filename
        if existsFile fs p = false then
          (d, [.emit s (.soundErr soundId "Sound file not found on server")])
        else
          match readFile fs p with
          | some content =>
            (d, [.emit s (.soundData r.id r.name r.duration content)])
          | none => (d, [.emit s (.soundErr soundId "Failed to read sound file")])

/-- One iteration of the V2 disconnect cleanup loop: delete the entry for
`sid` only if the registry still maps `sid` to this very socket. -/
def unregisterIfCurrent (s : Nat) (reg : Registry) (sid : String) : Registry :=
  if regLookup reg sid = some s then regDelete reg sid else reg

/-- The disconnect handler of V2: for every identity authenticated on this
socket, compare-and-delete its registry entry. -/
def disconnectV2 (reg : Registry) (s : Nat) (d : V2Data) : Registry :=
  d.players.foldl (fun r p => unregisterIfCurrent s r p.1) reg

/-- The message dispatcher of V2. -/
def handleMessageV2 (reg : Registry) (s : Nat) (d : V2Data) (ty : Option String)
    (sid soundId : String) (users : String → Option UserRec)
    (table : List SoundRec) (fs : FileSys) : V2Data × List Step :=
  match ty with
  | none => (d, [.emit s (.errMsg "Invalid message format")])
  | some t =>
    if t = "auth" then handleAuthV2 reg s d sid users
    else if t = "get_sounds" then handleGetSoundsV2 s d table
    else if t = "play_sound" then handlePlaySoundV2 s d soundId table fs
    else (d, [.emit s (.errMsg "Unknown message type")])

/-! ## Shared concrete data for witnesses and counterexamples -/

/-- `DEFAULT_SETTINGS` from `schemas/settings.ts`. -/
def defaultSettings : Settings :=
  { maxSoundsPerUser := 25, maxFileSize := 5242880, maxDuration := 10,
    allowedFormats := ["audio/ogg", "audio/mpeg", "audio/wav"] }

/-- An upload call in which everything succeeds up to and including the
transcode and the `fs.stat`, and then `prisma.sound.create` throws. -/
def envDbFail : UploadEnv :=
  { settings := defaultSettings, cachedCount := none, dbCount := 0,
    sniffed := some "audio/ogg", probed := some 3, convertOk := true,
    statOk := true, dbCreateOk := false, tempName := "temp_t1",
    finalName := "f1.ogg" }

/-- An upload call in which the transcode succeeds and then
`fs.stat(finalPath)` throws. -/
def envStatFail : UploadEnv :=
  { settings := defaultSettings, cachedCount := none, dbCount := 0,
    sniffed := some "audio/ogg", probed := some 3, convertOk := true,
    statOk := false, dbCreateOk := true, tempName := "temp_t1",
    finalName := "f1.ogg" }

/-- An upload call whose owner is exactly at the quota. -/
def envQuotaFull : UploadEnv :=
  { settings := defaultSettings, cachedCount := some 25, dbCount := 25,
    sniffed := some "audio/ogg", probed := some 3, convertOk := true,
    statOk := true, dbCreateOk := true, tempName := "temp_t2",
    finalName := "f2.ogg" }

/-- Settings in which only `audio/wav` is configured as allowed. -/
def wavOnlySettings : Settings :=
  { maxSoundsPerUser := 25, maxFileSize := 102400, maxDuration := 10,
    allowedFormats := ["audio/wav"] }

/-- An upload whose bytes sniff as a type outside the effective allowed
set. -/
def envOggRejected : UploadEnv :=
  { settings := defaultSettings, cachedCount := none, dbCount := 0,
    sniffed := some "video/mp4", probed := some 3, convertOk := true,
    statOk := true, dbCreateOk := true, tempName := "temp_t3",
    finalName := "f3.ogg" }

/-- A registry in which identity X is held by socket 7. -/
def regW : Registry := [("X", 7)]

/-- A concrete non-banned user with no sounds. -/
def uW : UserRec := { id := "u1", username := "Alice", isBanned := false, sounds := [] }

/-- A user-store oracle knowing exactly identity X. -/
def usersW (i : String) : Option UserRec := if i = "X" then some uW else none

/-- An empty file system whose reads never fail transiently. -/
def fsEmpty : FileSys := { files := [], readFails := fun _ => false }

/-- A file system holding the stored file of `recW` but whose reads throw. -/
def fsThrow : FileSys := { files := [("X/b.ogg", "CONTENT")], readFails := fun _ => true }

/-- A sound record owned by user u1 / identity X. -/
def recW : SoundRec :=
  { id := "s1", name := "boom", filename := "b.ogg", duration := 3,
    userId := "u1", ownerSteam := "X" }

/-- A one-row sound table. -/
def tableW : List SoundRec := [recW]

/-- V1 connection data of a connection authenticated as u1 / X. -/
def dAuthed : V1Data :=
  { authenticated := true, userId := some "u1", steamId64 := some "X",
    username := some "Alice" }

/-- V2 connection data on which identity X is authenticated as user u1. -/
def dAuthed2 : V2Data := { players := [("X", { userId := "u1", username := "Alice" })] }

/-- Stale V1 connection data: this connection once authenticated X, but a
newer connection (socket 2) is now registered for X. -/
def dStale : V1Data :=
  { authenticated := true, userId := some "u1", steamId64 := some "X",
    username := some "Alice" }

/-- A registry in which X is held by socket 2 and Y by socket 1. -/
def regTwo : Registry := [("X", 2), ("Y", 1)]

/-! ## Helper lemmas -/

/-- Claim C1 (code bug): an upload that fails after the transcode —
`fs.stat` or `prisma.sound.create` throwing — returns INTERNAL_ERROR with
no record created, yet the transcoded output file `f1.ogg` is left in the
owner directory (the catch block of `createSound` unlinks only the
temporary staging file), so the directory does not hold exactly the files
it held before the call, contrary to the claim and to the stated cleanup
invariant. -/
theorem c1_failed_upload_orphans_transcoded_file :
    createSound envDbFail ["old.ogg"] "Alert" 51200 =
      (.err .internalError, ["old.ogg", "f1.ogg"], false) ∧
    createSound envStatFail ["old.ogg"] "Alert" 51200 =
      (.err .internalError, ["old.ogg", "f1.ogg"], false) ∧
    ["old.ogg", "f1.ogg"] ≠ (["old.ogg"] : List String) := by
  refine ⟨by decide, by decide, by decide⟩

/-- Claim C6, counterexample: an upload whose resolved count is at the
quota but whose display name fails validation returns NAME_TOO_SHORT, not
QUOTA_EXCEEDED — the name gate runs before the quota gate, so the claim as
stated ("for every upload request by an owner whose current sound count is
greater than or equal to maxSoundsPerUser, the operation returns
QUOTA_EXCEEDED") fails at this input. -/
theorem c6_name_check_preempts_quota :
    resolvedCount envQuotaFull ≥ envQuotaFull.settings.maxSoundsPerUser ∧
    createSound envQuotaFull ["old.ogg"] "" 51200 =
      (.err .nameTooShort, ["old.ogg"], false) ∧
    ErrCode.nameTooShort ≠ ErrCode.quotaExceeded := by
  refine ⟨by decide, by decide, by decide⟩

/-- Claim C6, amended: for every upload request whose display name passes
validation, by an owner whose resolved sound count (quota cache first,
authoritative count on a miss) is at least the effective maxSoundsPerUser
setting, `createSound` returns QUOTA_EXCEEDED, writes no file to the owner
directory and creates no record. -/
theorem c6_quota_exceeded_rejects (env : UploadEnv) (dir : List String)
    (name : String) (bufLen : Nat)
    (hname : validateSoundName name = none)
    (hquota : resolvedCount env ≥ env.settings.maxSoundsPerUser) :
    createSound env dir name bufLen = (.err .quotaExceeded, dir, false) := by
  unfold createSound
  rw [hname]
  simp [hquota]

/-- Witness for the amended C6 theorem at a concrete input. -/
theorem c6_quota_exceeded_rejects_witness :
    createSound envQuotaFull ["old.ogg"] "Alert" 51200 =
      (.err .quotaExceeded, ["old.ogg"], false) :=
  c6_quota_exceeded_rejects envQuotaFull ["old.ogg"] "Alert" 51200
    (by decide) (by decide)

/-- Claim C7: a display name whose trimmed length is below
NAME_MIN_LENGTH = 1 is rejected with NAME_TOO_SHORT, one whose trimmed
length exceeds NAME_MAX_LENGTH = 32 with NAME_TOO_LONG, in both cases with
no file written and no record created; trimmed lengths in [1, 32] pass
name validation. -/
theorem c7_name_length_validation (env : UploadEnv) (dir : List String)
    (name : String) (bufLen : Nat) :
    ((trimName name).length < 1 →
      createSound env dir name bufLen = (.err .nameTooShort, dir, false)) ∧
    ((trimName name).length > 32 →
      createSound env dir name bufLen = (.err .nameTooLong, dir, false)) ∧
    (1 ≤ (trimName name).length → (trimName name).length ≤ 32 →
      validateSoundName name = none) := by
  refine ⟨fun h => ?_, fun h => ?_, fun h1 h2 => ?_⟩
  · simp [createSound, validateSoundName, NAME_MIN_LENGTH, h]
  · have h0 : ¬ (trimName name).length < 1 := by omega
    simp [createSound, validateSoundName, NAME_MIN_LENGTH, NAME_MAX_LENGTH, h, h0]
  · have h0 : ¬ (trimName name).length < 1 := by omega
    have h3 : ¬ (trimName name).length > 32 := by omega
    simp [validateSoundName, NAME_MIN_LENGTH, NAME_MAX_LENGTH, h0, h3]

/-- Witness for the C7 theorem: the empty name, a 33-character name and a
5-character name, each at a concrete environment. -/
theorem c7_name_length_validation_witness :
    createSound envQuotaFull ["old.ogg"] " " 51200 =
      (.err .nameTooShort, ["old.ogg"], false) ∧
    createSound envQuotaFull ["old.ogg"] "abcdefghijklmnopqrstuvwxyz0123456" 51200 =
      (.err .nameTooLong, ["old.ogg"], false) ∧
    validateSoundName "Alert" = none := by
  refine ⟨?_, ?_, ?_⟩
  · exact (c7_name_length_validation envQuotaFull ["old.ogg"] " " 51200).1 (by decide)
  · exact (c7_name_length_validation envQuotaFull ["old.ogg"]
      "abcdefghijklmnopqrstuvwxyz0123456" 51200).2.1 (by decide)
  · exact (c7_name_length_validation envQuotaFull ["old.ogg"] "Alert" 51200).2.2
      (by decide) (by decide)

/-- Claim C8, counterexample: with `allowedFormats = ["audio/wav"]`, a
buffer whose sniffed type is `audio/wave` — not a member of the configured
set — passes `validateAudioFile`, because the code widens the set with the
wav aliases; and a buffer over the size limit whose sniffed type is not
allowed is rejected with FILE_TOO_LARGE, not with INVALID_FILE_TYPE or
INVALID_AUDIO_FORMAT.  Both refute the claim as stated. -/
theorem c8_wav_alias_accepted_outside_configured_set :
    validateAudioFile wavOnlySettings 50 (some "audio/wave") (some 3) =
      .ok 3 ∧
    ¬ ("audio/wave" ∈ wavOnlySettings.allowedFormats) ∧
    validateAudioFile wavOnlySettings 200000 (some "text/plain") (some 3) =
      .error .fileTooLarge ∧
    ErrCode.fileTooLarge ≠ ErrCode.invalidFileType ∧
    ErrCode.fileTooLarge ≠ ErrCode.invalidFormat := by
  refine ⟨by rfl, by decide, by rfl, by decide, by decide⟩

/-- A successful `validateAudioFile` always carries a sniffed MIME type in
the effective allowed set. -/
theorem validateAudioFile_ok_mem (st : Settings) (bufLen : Nat)
    (sn : Option String) (pr : Option ℚ) (d : ℚ)
    (h : validateAudioFile st bufLen sn pr = .ok d) :
    ∃ m, sn = some m ∧ m ∈ effectiveFormats st.allowedFormats := by
  cases sn with
  | none =>
    unfold validateAudioFile at h
    split at h <;> simp_all
  | some m =>
    refine ⟨m, rfl, ?_⟩
    by_cases hm : m ∈ effectiveFormats st.allowedFormats
    · exact hm
    · unfold validateAudioFile at h
      split at h <;> simp_all

/-- Claim C8, amended: the content type is determined by sniffing the raw
bytes only (`validateAudioFile` consults no file name), and the gate is
the effective allowed set — the configured `allowedFormats` plus the
aliases `audio/wave` and `audio/x-wav` whenever `audio/wav` is configured.
For a buffer within the size limit, an undeterminable type is rejected
with INVALID_FILE_TYPE and a determinable type outside the effective set
with INVALID_AUDIO_FORMAT; no byte content whose sniffed type is outside
the effective set is ever accepted by the upload pipeline. -/
theorem c8_sniffed_type_gate (st : Settings) (bufLen : Nat)
    (sn : Option String) (pr : Option ℚ) :
    (bufLen ≤ st.maxFileSize → sn = none →
      validateAudioFile st bufLen sn pr = .error .invalidFileType) ∧
    (∀ m, bufLen ≤ st.maxFileSize → sn = some m →
      m ∉ effectiveFormats st.allowedFormats →
      validateAudioFile st bufLen sn pr = .error .invalidFormat) ∧
    (∀ env : UploadEnv, ∀ dir name bufLen2,
      (∀ m, env.sniffed = some m → m ∉ effectiveFormats env.settings.allowedFormats) →
      (createSound env dir name bufLen2).2.2 = false) := by
  refine ⟨fun hsz hn => ?_, fun m hsz hm hnotm => ?_, fun env dir name bufLen2 hout => ?_⟩
  · have h0 : ¬ bufLen > st.maxFileSize := by omega
    simp [validateAudioFile, h0, hn]
  · have h0 : ¬ bufLen > st.maxFileSize := by omega
    simp [validateAudioFile, h0, hm, hnotm]
  · unfold createSound
    cases hname : validateSoundName name with
    | some c => rfl
    | none =>
      by_cases hq : resolvedCount env ≥ env.settings.maxSoundsPerUser
      · simp [hq]
      · simp only [hq, if_false]
        cases hv : validateAudioFile env.settings bufLen2 env.sniffed env.probed with
        | error c => rfl
        | ok dur =>
          obtain ⟨m, hm, hmem⟩ := validateAudioFile_ok_mem _ _ _ _ _ hv
          exact absurd hmem (hout m hm)

/-- Witness for the amended C8 theorem at concrete inputs. -/
theorem c8_sniffed_type_gate_witness :
    validateAudioFile wavOnlySettings 50 none (some 3) =
      .error .invalidFileType ∧
    validateAudioFile wavOnlySettings 50 (some "text/plain") (some 3) =
      .error .invalidFormat ∧
    (createSound envOggRejected ["old.ogg"] "Alert" 51200).2.2 = false := by
  refine ⟨?_, ?_, ?_⟩
  · exact (c8_sniffed_type_gate wavOnlySettings 50 none (some 3)).1
      (by decide) rfl
  · exact (c8_sniffed_type_gate wavOnlySettings 50 (some "text/plain") (some 3)).2.1
      "text/plain" (by decide) rfl (by decide)
  · exact (c8_sniffed_type_gate wavOnlySettings 50 none (some 3)).2.2
      envOggRejected ["old.ogg"] "Alert" 51200
      (fun m hm => by
        simp only [envOggRejected] at hm
        cases hm
        decide)

/-! ## Registry lemmas -/

/-- Looking an identity up after deleting a (possibly different) one. -/
theorem regLookup_regDelete (r : Registry) (i j : String) :
    regLookup (regDelete r j) i = if i = j then none else regLookup r i := by
  induction r with
  | nil =>
    unfold regDelete regLookup
    split <;> rfl
  | cons p rest ih =>
    obtain ⟨k, v⟩ := p
    by_cases hkj : k = j <;> by_cases hki : k = i <;> by_cases hij : i = j <;>
      simp_all [regDelete, regLookup]

/-- Looking up the freshly stored identity. -/
theorem regLookup_regSet_self (r : Registry) (sid : String) (s : Nat) :
    regLookup (regSet r sid s) sid = some s := by
  simp [regSet, regLookup]

/-- The keys of a delete form a sublist of the original keys. -/
theorem regDelete_keys_sublist (r : Registry) (sid : String) :
    ((regDelete r sid).map Prod.fst).Sublist (r.map Prod.fst) := by
  induction r with
  | nil => simp [regDelete]
  | cons p rest ih =>
    obtain ⟨k, v⟩ := p
    by_cases h : k = sid
    · subst h
      simp only [regDelete, if_pos rfl, List.map_cons]
      exact ih.cons k
    · simp only [regDelete, if_neg h, List.map_cons]
      exact ih.cons₂ k

/-- The deleted identity is gone from the keys. -/
theorem regDelete_not_mem_keys (r : Registry) (sid : String) :
    sid ∉ (regDelete r sid).map Prod.fst := by
  induction r with
  | nil => simp [regDelete]
  | cons p rest ih =>
    obtain ⟨k, v⟩ := p
    by_cases h : k = sid
    · simpa [regDelete, h] using ih
    · simp [regDelete, h, ih]
      intro hc
      exact absurd hc.symm h

/-- Deleting preserves key uniqueness. -/
theorem nodupKeys_regDelete (r : Registry) (sid : String)
    (h : nodupKeys r) : nodupKeys (regDelete r sid) :=
  List.Nodup.sublist (regDelete_keys_sublist r sid) h

/-- Storing preserves key uniqueness. -/
theorem nodupKeys_regSet (r : Registry) (sid : String) (s : Nat)
    (h : nodupKeys r) : nodupKeys (regSet r sid s) := by
  unfold nodupKeys regSet
  simp only [List.map_cons]
  exact List.Nodup.cons (regDelete_not_mem_keys r sid) (nodupKeys_regDelete r sid h)

/-- Every primitive step preserves key uniqueness. -/
theorem nodupKeys_applyStep (r : Registry) (st : Step)
    (h : nodupKeys r) : nodupKeys (applyStep r st) := by
  cases st with
  | emit _ _ => exact h
  | close _ => exact h
  | store sid s => exact nodupKeys_regSet r sid s h
  | remove sid => exact nodupKeys_regDelete r sid h

/-- Every run of steps preserves key uniqueness, hence at every instant of
any handler the registry maps each identity to at most one socket. -/
theorem nodupKeys_runSteps (r : Registry) (steps : List Step)
    (h : nodupKeys r) : nodupKeys (runSteps r steps) := by
  induction steps generalizing r with
  | nil => exact h
  | cons st rest ih => exact ih (applyStep r st) (nodupKeys_applyStep r st h)

/-! ## Lemmas about the V2 disconnect cleanup -/

/-- One compare-and-delete iteration either leaves a lookup unchanged or
erases it. -/
theorem regLookup_unreg (s : Nat) (r : Registry) (j i : String) :
    regLookup (unregisterIfCurrent s r j) i = regLookup r i ∨
    regLookup (unregisterIfCurrent s r j) i = none := by
  unfold unregisterIfCurrent
  split
  · rw [regLookup_regDelete]
    split
    · right; rfl
    · left; rfl
  · left; rfl

/-- The cleanup fold either leaves a lookup unchanged or erases it — it
never creates or redirects an entry. -/
theorem foldUnreg_lookup (s : Nat) (ps : List (String × PlayerInfo))
    (r : Registry) (i : String) :
    regLookup (ps.foldl (fun acc p => unregisterIfCurrent s acc p.1) r) i =
      regLookup r i ∨
    regLookup (ps.foldl (fun acc p => unregisterIfCurrent s acc p.1) r) i =
      none := by
  induction ps generalizing r with
  | nil => left; rfl
  | cons p rest ih =>
    simp only [List.foldl_cons]
    rcases ih (unregisterIfCurrent s r p.1) with h | h
    · rcases regLookup_unreg s r p.1 i with h2 | h2
      · left; rw [h, h2]
      · right; rw [h, h2]
    · right; exact h

/-- An entry registered to a different socket survives the cleanup fold. -/
theorem foldUnreg_preserves (s t : Nat) (ps : List (String × PlayerInfo))
    (r : Registry) (i : String) (hi : regLookup r i = some t) (hts : t ≠ s) :
    regLookup (ps.foldl (fun acc p => unregisterIfCurrent s acc p.1) r) i =
      some t := by
  induction ps generalizing r with
  | nil => exact hi
  | cons p rest ih =>
    simp only [List.foldl_cons]
    apply ih
    unfold unregisterIfCurrent
    split
    · rename_i hguard
      rw [regLookup_regDelete]
      split
      · rename_i hij
        rw [hij] at hi
        rw [hi] at hguard
        exact absurd (Option.some.inj hguard) hts
      · exact hi
    · exact hi

/-- After the cleanup fold, no identity authenticated on the disconnected
socket still maps to that socket. -/
theorem foldUnreg_not_some_s (s : Nat) (ps : List (String × PlayerInfo)) :
    ∀ (r : Registry) (i : String), i ∈ ps.map Prod.fst →
      regLookup (ps.foldl (fun acc p => unregisterIfCurrent s acc p.1) r) i ≠
        some s := by
  induction ps with
  | nil =>
    intro r i hi
    simp at hi
  | cons p rest ih =>
    intro r i hi
    simp only [List.map_cons, List.mem_cons] at hi
    simp only [List.foldl_cons]
    by_cases hmem : i ∈ rest.map Prod.fst
    · exact ih (unregisterIfCurrent s r p.1) i hmem
    · have hip : i = p.1 := by tauto
      rw [hip]
      have hstep : regLookup (unregisterIfCurrent s r p.1) p.1 ≠ some s := by
        unfold unregisterIfCurrent
        split
        · rw [regLookup_regDelete]
          simp
        · rename_i hguard
          exact hguard
      rcases foldUnreg_lookup s rest (unregisterIfCurrent s r p.1) p.1 with h | h
      · rw [h]; exact hstep
      · rw [h]; simp

/-- When no listed identity maps to the socket, the cleanup fold is the
identity. -/
theorem foldUnreg_noop (s : Nat) (ps : List (String × PlayerInfo))
    (r : Registry) (h : ∀ p ∈ ps, regLookup r p.1 ≠ some s) :
    ps.foldl (fun acc p => unregisterIfCurrent s acc p.1) r = r := by
  induction ps with
  | nil => rfl
  | cons p rest ih =>
    simp only [List.foldl_cons]
    have hstep : unregisterIfCurrent s r p.1 = r := by
      unfold unregisterIfCurrent
      rw [if_neg (h p (by simp))]
    rw [hstep]
    exact ih (fun q hq => h q (by simp [hq]))

/-! ## Claims about the connection registry and auth -/

/-- Claim C2: when an identity authenticates successfully on socket `s`
while the registry maps that identity to another socket `old`, both
variants of `handleAuth` produce exactly the step sequence displacement
notice to `old`, forced close of `old`, store of the new socket, success
notice to `s` — the displaced connection is notified and closed strictly
before the new connection is stored; afterwards the registry maps the
identity to the new socket, and key uniqueness (at most one connection per
identity) holds at every instant of the sequence. -/
theorem c2_displacement_before_store (reg : Registry) (s old : Nat)
    (d1 : V1Data) (d2 : V2Data) (sid : String) (u : UserRec)
    (users : String → Option UserRec)
    (hsid : sid ≠ "") (hu : users sid = some u) (hban : u.isBanned = false)
    (hreg : regLookup reg sid = some old) (hold : old ≠ s)
    (hnd : nodupKeys reg) :
    (handleAuthV1 reg s d1 sid users).2 =
      [.emit old (.authErr "Connected from another location"), .close old,
       .store sid s, .emit s (.authSuccess u.username u.sounds)] ∧
    (handleAuthV2 reg s d2 sid users).2 =
      [.emit old (.authErr "Connected from another location"), .close old,
       .store sid s, .emit s (.authSuccess u.username u.sounds)] ∧
    regLookup (runSteps reg (handleAuthV1 reg s d1 sid users).2) sid = some s ∧
    regLookup (runSteps reg (handleAuthV2 reg s d2 sid users).2) sid = some s ∧
    (∀ n, nodupKeys (runSteps reg ((handleAuthV1 reg s d1 sid users).2.take n))) ∧
    (∀ n, nodupKeys (runSteps reg ((handleAuthV2 reg s d2 sid users).2.take n))) := by
  have hv1 : (handleAuthV1 reg s d1 sid users).2 =
      [.emit old (.authErr "Connected from another location"), .close old,
       .store sid s, .emit s (.authSuccess u.username u.sounds)] := by
    simp [handleAuthV1, hsid, hu, hban, hreg]
  have hv2 : (handleAuthV2 reg s d2 sid users).2 =
      [.emit old (.authErr "Connected from another location"), .close old,
       .store sid s, .emit s (.authSuccess u.username u.sounds)] := by
    simp [handleAuthV2, hsid, hu, hban, hreg, hold]
  refine ⟨hv1, hv2, ?_, ?_, ?_, ?_⟩
  · rw [hv1]
    simp only [runSteps, List.foldl_cons, List.foldl_nil, applyStep]
    exact regLookup_regSet_self reg sid s
  · rw [hv2]
    simp only [runSteps, List.foldl_cons, List.foldl_nil, applyStep]
    exact regLookup_regSet_self reg sid s
  · intro n
    exact nodupKeys_runSteps reg _ hnd
  · intro n
    exact nodupKeys_runSteps reg _ hnd

/-- Witness for C2 at a concrete input: socket 1 authenticates identity X,
displacing socket 7. -/
theorem c2_displacement_before_store_witness :
    (handleAuthV1 regW 1 v1Fresh "X" usersW).2 =
      [.emit 7 (.authErr "Connected from another location"), .close 7,
       .store "X" 1, .emit 1 (.authSuccess "Alice" [])] ∧
    regLookup (runSteps regW (handleAuthV2 regW 1 v2Fresh "X" usersW).2) "X" =
      some 1 ∧
    nodupKeys (runSteps regW ((handleAuthV1 regW 1 v1Fresh "X" usersW).2.take 2)) := by
  have h := c2_displacement_before_store regW 1 7 v1Fresh v2Fresh "X" uW usersW
    (by decide) rfl rfl (by decide) (by decide) (by decide)
  exact ⟨h.1, h.2.2.2.1, h.2.2.2.2.1 2⟩

/-- Claim C3, counterexample: the single-identity variant deletes the
registry entry of its stored identity unconditionally on disconnect.  Run
its disconnect handler for a stale connection that had authenticated X
while the registry meanwhile maps X to a different, newer socket (socket
2): the newer registration is deleted, refuting "removes the registry
entry for that identity only if the registry still maps the identity to
this very connection" for that variant. -/
theorem c3_v1_disconnect_clobbers_newer :
    regLookup [("X", 2)] "X" = some 2 ∧
    disconnectV1 [("X", 2)] dStale = [] ∧
    regLookup (disconnectV1 [("X", 2)] dStale) "X" = none := by
  refine ⟨by decide, by decide, by decide⟩

/-- Claim C3, amended: the multi-identity variant disconnect handler
compare-and-deletes: an entry that meanwhile maps to a different socket is
left untouched (a displaced stale connection never deletes the newer
registration), every identity of the disconnecting socket ends up not
mapped to that socket, and repeating the cleanup is a no-op (idempotent);
the single-identity variant instead deletes its stored identity entry
unconditionally. -/
theorem c3_unregister_if_current :
    (∀ (reg : Registry) (s t : Nat) (d : V2Data) (sid : String),
      regLookup reg sid = some t → t ≠ s →
      regLookup (disconnectV2 reg s d) sid = some t) ∧
    (∀ (reg : Registry) (s : Nat) (d : V2Data) (sid : String),
      sid ∈ d.players.map Prod.fst →
      regLookup (disconnectV2 reg s d) sid ≠ some s) ∧
    (∀ (reg : Registry) (s : Nat) (d : V2Data),
      disconnectV2 (disconnectV2 reg s d) s d = disconnectV2 reg s d) ∧
    (∀ (reg : Registry) (d : V1Data) (sid : String),
      d.steamId64 = some sid → disconnectV1 reg d = regDelete reg sid) := by
  refine ⟨?_, ?_, ?_, ?_⟩
  · intro reg s t d sid hsid hts
    exact foldUnreg_preserves s t d.players reg sid hsid hts
  · intro reg s d sid hmem
    exact foldUnreg_not_some_s s d.players reg sid hmem
  · intro reg s d
    apply foldUnreg_noop
    intro p hp
    exact foldUnreg_not_some_s s d.players reg p.1 (List.mem_map_of_mem _ hp)
  · intro reg d sid hsid
    unfold disconnectV1
    rw [hsid]

/-- Witness for C3 at concrete inputs: socket 1 disconnects while X is
registered to socket 2; the entry survives, and repeating the cleanup
changes nothing. -/
theorem c3_unregister_if_current_witness :
    regLookup (disconnectV2 regTwo 1 dAuthed2) "X" = some 2 ∧
    disconnectV2 (disconnectV2 regTwo 1 dAuthed2) 1 dAuthed2 =
      disconnectV2 regTwo 1 dAuthed2 := by
  refine ⟨?_, ?_⟩
  · exact c3_unregister_if_current.1 regTwo 1 2 dAuthed2 "X" (by decide) (by decide)
  · exact c3_unregister_if_current.2.2.1 regTwo 1 dAuthed2

/-- Claim C4, counterexample: the multi-identity variant connection
handler arms no authentication timer; a connection that stays silent for
11 seconds (11000 ms) is still open and has received no message, refuting
"for every plugin socket connection, a 10-second authentication timer is
armed at connect ... a connection that sends no auth message for 11
seconds ends closed with that message". -/
theorem c4_v2_has_no_auth_timer :
    v2ElapseSilent v2Connect 11000 = (v2Connect, []) ∧
    v2Connect.closed = false := by
  exact ⟨rfl, rfl⟩

/-- Claim C4, amended: in the single-identity variant a 10-second
authentication timer is armed at connect, and if no successful auth has
happened when it fires the connection receives auth_error "Authentication
timeout" and is forcibly closed — in particular a connection silent for
11 seconds ends closed with exactly that message; the multi-identity
variant arms no such timer. -/
theorem c4_auth_timeout_v1 (ms : Nat) (h : ms ≥ 10000) :
    v1Connect.timerArmed = true ∧
    v1ElapseSilent v1Connect ms =
      ({ authenticated := false, closed := true, timerArmed := false },
       [.authErr "Authentication timeout"]) := by
  refine ⟨rfl, ?_⟩
  simp [v1ElapseSilent, v1Connect, h]

/-- Witness for the amended C4 theorem at 11 seconds of silence. -/
theorem c4_auth_timeout_v1_witness :
    v1Connect.timerArmed = true ∧
    v1ElapseSilent v1Connect 11000 =
      ({ authenticated := false, closed := true, timerArmed := false },
       [.authErr "Authentication timeout"]) :=
  c4_auth_timeout_v1 11000 (by decide)

/-- A record found by the ownership-scoped query matches both the id and
the owner. -/
theorem findOwned_eq (table : List SoundRec) (i uid : String) (r : SoundRec)
    (h : findOwned table i uid = some r) : r.id = i ∧ r.userId = uid := by
  have h2 := List.find?_some h
  simp only [Bool.and_eq_true, decide_eq_true_eq] at h2
  exact h2

/-- A record found by the global query matches the id. -/
theorem findUnique_eq (table : List SoundRec) (i : String) (r : SoundRec)
    (h : findUnique table i = some r) : r.id = i := by
  have h2 := List.find?_some h
  simpa using h2

/-- Claim C5, counterexample: (i) in the single-identity variant,
`play_sound` on a connection with no authenticated identity answers with
auth_error, not with a sound_error for the requested soundId; (ii) in the
multi-identity variant, a sound owned by an authenticated identity whose
file is missing on disk yields sound_error "Sound file not found on
server", not the claimed "Failed to read sound file". -/
theorem c5_play_sound_counterexample :
    handlePlaySoundV1 1 v1Fresh "s1" tableW fsEmpty =
      (v1Fresh, [.emit 1 (.authErr "Not authenticated")]) ∧
    handlePlaySoundV2 1 dAuthed2 "s1" tableW fsEmpty =
      (dAuthed2, [.emit 1 (.soundErr "s1" "Sound file not found on server")]) ∧
    "Sound file not found on server" ≠ "Failed to read sound file" := by
  refine ⟨by decide, by decide, by decide⟩

/-- Claim C5, amended: on a connection holding an authenticated identity,
a play_sound for a soundId that does not exist or is not owned by an
identity authenticated on that connection yields a sound_error for that
soundId, and a sound_data message is only ever emitted for a sound owned
by an identity authenticated on the connection (the bytes of another owner
never leak); when the sound is owned but reading its file fails the
server emits sound_error "Failed to read sound file" — except that the
multi-identity variant reports a file missing on disk as sound_error
"Sound file not found on server" — and in every case the connection data
is left unchanged, so it remains AUTHENTICATED.  (On a single-identity
connection with no authenticated identity, play_sound yields auth_error
"Not authenticated" instead.) -/
theorem c5_play_sound_scoping (s : Nat) (d : V1Data) (uid sid soundId : String)
    (table : List SoundRec) (fsys : FileSys)
    (hauth : d.authenticated = true) (huid : d.userId = some uid)
    (hsid : d.steamId64 = some sid) :
    (findOwned table soundId uid = none →
      handlePlaySoundV1 s d soundId table fsys =
        (d, [.emit s (.soundErr soundId "Sound not found")])) ∧
    (∀ i n dur c, Step.emit s (.soundData i n dur c) ∈
        (handlePlaySoundV1 s d soundId table fsys).2 →
      ∃ r, findOwned table soundId uid = some r ∧ r.userId = uid ∧ i = r.id) ∧
    (∀ r, findOwned table soundId uid = some r →
      readFile fsys (filePathOf sid r.filename) = none →
      handlePlaySoundV1 s d soundId table fsys =
        (d, [.emit s (.soundErr soundId "Failed to read sound file")])) ∧
    (∀ d2 : V2Data,
      (findUnique table soundId = none →
        handlePlaySoundV2 s d2 soundId table fsys =
          (d2, [.emit s (.soundErr soundId "Sound not found")])) ∧
      (∀ r, findUnique table soundId = some r →
        plLookup d2.players r.ownerSteam = none →
        handlePlaySoundV2 s d2 soundId table fsys =
          (d2, [.emit s (.soundErr soundId "Not authenticated")])) ∧
      (∀ r pi, findUnique table soundId = some r →
        plLookup d2.players r.ownerSteam = some pi → pi.userId ≠ r.userId →
        handlePlaySoundV2 s d2 soundId table fsys =
          (d2, [.emit s (.soundErr soundId "Not authenticated")])) ∧
      (∀ i n dur c, Step.emit s (.soundData i n dur c) ∈
          (handlePlaySoundV2 s d2 soundId table fsys).2 →
        ∃ r pi, findUnique table soundId = some r ∧
          plLookup d2.players r.ownerSteam = some pi ∧
          pi.userId = r.userId ∧ i = r.id) ∧
      (∀ r pi, findUnique table soundId = some r →
        plLookup d2.players r.ownerSteam = some pi → pi.userId = r.userId →
        existsFile fsys (filePathOf r.ownerSteam r.filename) = true →
        readFile fsys (filePathOf r.ownerSteam r.filename) = none →
        handlePlaySoundV2 s d2 soundId table fsys =
          (d2, [.emit s (.soundErr soundId "Failed to read sound file")])) ∧
      (∀ r pi, findUnique table soundId = some r →
        plLookup d2.players r.ownerSteam = some pi → pi.userId = r.userId →
        existsFile fsys (filePathOf r.ownerSteam r.filename) = false →
        handlePlaySoundV2 s d2 soundId table fsys =
          (d2, [.emit s (.soundErr soundId "Sound file not found on server")]))) := by
  refine ⟨?_, ?_, ?_, ?_⟩
  · intro h
    simp [handlePlaySoundV1, hauth, huid, hsid, h]
  · intro i n dur c hmem
    cases hfo : findOwned table soundId uid with
    | none =>
      simp [handlePlaySoundV1, hauth, huid, hsid, hfo] at hmem
    | some r =>
      cases hrf : readFile fsys (filePathOf sid r.filename) with
      | none =>
        simp [handlePlaySoundV1, hauth, huid, hsid, hfo, hrf] at hmem
      | some content =>
        simp [handlePlaySoundV1, hauth, huid, hsid, hfo, hrf] at hmem
        exact ⟨r, rfl, (findOwned_eq table soundId uid r hfo).2, hmem.1⟩
  · intro r hfo hrf
    simp [handlePlaySoundV1, hauth, huid, hsid, hfo, hrf]
  · intro d2
    refine ⟨?_, ?_, ?_, ?_, ?_, ?_⟩
    · intro h
      simp [handlePlaySoundV2, h]
    · intro r hfu hpl
      simp [handlePlaySoundV2, hfu, hpl]
    · intro r pi hfu hpl hne
      simp [handlePlaySoundV2, hfu, hpl, hne]
    · intro i n dur c hmem
      cases hfu : findUnique table soundId with
      | none => simp [handlePlaySoundV2, hfu] at hmem
      | some r =>
        cases hpl : plLookup d2.players r.ownerSteam with
        | none => simp [handlePlaySoundV2, hfu, hpl] at hmem
        | some pi =>
          by_cases hne : pi.userId = r.userId
          · cases hex : existsFile fsys (filePathOf r.ownerSteam r.filename) with
            | false => simp [handlePlaySoundV2, hfu, hpl, hne, hex] at hmem
            | true =>
              cases hrf : readFile fsys (filePathOf r.ownerSteam r.filename) with
              | none => simp [handlePlaySoundV2, hfu, hpl, hne, hex, hrf] at hmem
              | some content =>
                simp [handlePlaySoundV2, hfu, hpl, hne, hex, hrf] at hmem
                exact ⟨r, pi, rfl, hpl, hne, hmem.1⟩
          · simp [handlePlaySoundV2, hfu, hpl, hne] at hmem
    · intro r pi hfu hpl hne hex hrf
      simp [handlePlaySoundV2, hfu, hpl, hne, hex, hrf]
    · intro r pi hfu hpl hne hex
      simp [handlePlaySoundV2, hfu, hpl, hne, hex]

/-- Witness for the amended C5 theorem: an authenticated connection plays
its own sound s1 whose file exists but whose read throws; both variants
answer with sound_error "Failed to read sound file" and leave the
connection data unchanged. -/
theorem c5_play_sound_scoping_witness :
    handlePlaySoundV1 1 dAuthed "s1" tableW fsThrow =
      (dAuthed, [.emit 1 (.soundErr "s1" "Failed to read sound file")]) ∧
    handlePlaySoundV2 1 dAuthed2 "s1" tableW fsThrow =
      (dAuthed2, [.emit 1 (.soundErr "s1" "Failed to read sound file")]) := by
  have h := c5_play_sound_scoping 1 dAuthed "u1" "X" "s1" tableW fsThrow
    rfl rfl rfl
  refine ⟨?_, ?_⟩
  · exact h.2.2.1 recW (by decide) (by decide)
  · exact (h.2.2.2 dAuthed2).2.2.2.2.1 recW { userId := "u1", username := "Alice" }
      (by decide) (by decide) (by decide) (by decide) (by decide)

/-- Claim C9, counterexample: in the multi-identity variant, get_sounds on
a connection with no authenticated identities emits nothing at all — in
particular not the claimed auth_error "Not authenticated". -/
theorem c9_v2_get_sounds_silent :
    handleGetSoundsV2 1 v2Fresh tableW = (v2Fresh, []) ∧
    ([] : List Step) ≠ [.emit 1 (.authErr "Not authenticated")] := by
  refine ⟨rfl, by decide⟩

/-- Claim C9, amended: in the single-identity variant, get_sounds while
not AUTHENTICATED yields exactly auth_error "Not authenticated", with the
connection data and the registry unchanged; in the multi-identity variant
a connection with no authenticated identities gets no reply at all, also
with no state change. -/
theorem c9_get_sounds_unauthenticated (s : Nat) (d : V1Data) (d2 : V2Data)
    (table : List SoundRec) (reg : Registry)
    (h1 : d.authenticated = false ∨ d.userId = none) (h2 : d2.players = []) :
    handleGetSoundsV1 s d table = (d, [.emit s (.authErr "Not authenticated")]) ∧
    runSteps reg (handleGetSoundsV1 s d table).2 = reg ∧
    handleGetSoundsV2 s d2 table = (d2, []) ∧
    runSteps reg (handleGetSoundsV2 s d2 table).2 = reg := by
  have hv1 : handleGetSoundsV1 s d table =
      (d, [.emit s (.authErr "Not authenticated")]) := by
    unfold handleGetSoundsV1
    rcases h1 with h | h
    · rw [h]
    · rw [h]
      cases d.authenticated <;> rfl
  have hv2 : handleGetSoundsV2 s d2 table = (d2, []) := by
    unfold handleGetSoundsV2
    rw [h2]
    rfl
  refine ⟨hv1, ?_, hv2, ?_⟩
  · rw [hv1]
    rfl
  · rw [hv2]
    rfl

/-- Witness for the amended C9 theorem at concrete inputs. -/
theorem c9_get_sounds_unauthenticated_witness :
    handleGetSoundsV1 1 v1Fresh tableW =
      (v1Fresh, [.emit 1 (.authErr "Not authenticated")]) ∧
    runSteps regW (handleGetSoundsV1 1 v1Fresh tableW).2 = regW := by
  have h := c9_get_sounds_unauthenticated 1 v1Fresh v2Fresh tableW regW
    (Or.inl rfl) rfl
  exact ⟨h.1, h.2.1⟩

/-- Claim C10: a message whose type field is a string other than auth,
get_sounds or play_sound makes both variants emit exactly the generic
error "Unknown message type" on the same connection — no close step, the
connection data unchanged, and the registry unchanged. -/
theorem c10_unknown_message_type (reg : Registry) (s : Nat) (d1 : V1Data)
    (d2 : V2Data) (t sid soundId : String) (users : String → Option UserRec)
    (table : List SoundRec) (fsys : FileSys)
    (h1 : t ≠ "auth") (h2 : t ≠ "get_sounds") (h3 : t ≠ "play_sound") :
    handleMessageV1 reg s d1 (some t) sid soundId users table fsys =
      (d1, [.emit s (.errMsg "Unknown message type")]) ∧
    handleMessageV2 reg s d2 (some t) sid soundId users table fsys =
      (d2, [.emit s (.errMsg "Unknown message type")]) ∧
    runSteps reg [.emit s (.errMsg "Unknown message type")] = reg := by
  refine ⟨?_, ?_, rfl⟩
  · simp [handleMessageV1, h1, h2, h3]
  · simp [handleMessageV2, h1, h2, h3]

/-- Witness for C10 at the concrete unknown type "ping". -/
theorem c10_unknown_message_type_witness :
    handleMessageV1 regW 1 v1Fresh (some "ping") "X" "s1" usersW tableW fsEmpty =
      (v1Fresh, [.emit 1 (.errMsg "Unknown message type")]) ∧
    handleMessageV2 regW 1 v2Fresh (some "ping") "X" "s1" usersW tableW fsEmpty =
      (v2Fresh, [.emit 1 (.errMsg "Unknown message type")]) := by
  have h := c10_unknown_message_type regW 1 v1Fresh v2Fresh "ping" "X" "s1"
    usersW tableW fsEmpty (by decide) (by decide) (by decide)
  exact ⟨h.1, h.2.1⟩

end Soundboard
